import Mathlib

/-!
Shallow embedding of `force-app/main/default/lwc/abTestHeroBanner/abTestHeroBanner.js`
(the `AbTestHeroBanner` Lightning web component).

Browser `localStorage` is modelled as an association list of string pairs,
JavaScript values reaching this component as an inductive type `JSValue`,
`Math.random()` as an explicit rational parameter in `[0,1)` (the code only
compares it with `0.5`), and the per-call values `Math.random()*16|0` drawn
inside `generateUUID` as an explicit stream of `Fin 16`.  `JSON.parse` is an
external browser builtin; it is modelled here by an executable parser for the
fragment of JSON this component's content references use (objects with
string keys, strings, integers, booleans, null).
-/

set_option linter.unusedVariables false

namespace ABHero

/-- Browser persistent key-value storage (`localStorage`), modelled as an
association list from keys to stored strings. -/
abbrev Storage : Type := List (String × String)

/-- Model of `localStorage.getItem`: the value stored under a key, if any. -/
def getItem : Storage → String → Option String
| [], _ => none
| (k1, v1) :: rest, k => if k1 = k then some v1 else getItem rest k

/-- Model of `localStorage.setItem`: overwrite the binding for a key, or
append a new one. -/
def setItem : Storage → String → String → Storage
| [], k, v => [(k, v)]
| (k1, v1) :: rest, k, v =>
  if k1 = k then (k, v) :: rest else (k1, v1) :: setItem rest k v

/-- JavaScript truthiness of a string-or-undefined value (`none` models
`undefined`/`null`; the empty string is falsy). -/
def truthyStr : Option String → Bool
| none => false
| some s => decide (s ≠ "")

/-- String interpolation of a string-or-undefined value: `undefined`
interpolates as the text "undefined". -/
def jsStr (o : Option String) : String := o.getD "undefined"

/-- JavaScript values relevant to this component: content references and
results of `JSON.parse`.  Arrays and fractional numbers do not occur in the
content references this component consumes and are outside the model. -/
inductive JSValue : Type
| vUndef : JSValue
| vNull : JSValue
| vBool : Bool → JSValue
| vNum : Int → JSValue
| vStr : String → JSValue
| vObj : List (String × JSValue) → JSValue

/-- JavaScript truthiness of a `JSValue`. -/
def jsTruthy : JSValue → Bool
| JSValue.vUndef => false
| JSValue.vNull => false
| JSValue.vBool b => b
| JSValue.vNum n => decide (n ≠ 0)
| JSValue.vStr s => decide (s ≠ "")
| JSValue.vObj _ => true

/-- JavaScript `a || b`. -/
def jsOr (a b : JSValue) : JSValue := if jsTruthy a then a else b

/-- String interpolation of a `JSValue` (JavaScript `String(v)`). -/
def jsToString : JSValue → String
| JSValue.vUndef => "undefined"
| JSValue.vNull => "null"
| JSValue.vBool true => "true"
| JSValue.vBool false => "false"
| JSValue.vNum n => toString n
| JSValue.vStr s => s
| JSValue.vObj _ => "[object Object]"

/-- JavaScript `x || d` for a possibly-absent string with a string default. -/
def jsOrStr (o : Option String) (d : String) : String :=
match o with
| none => d
| some s => if s = "" then d else s

/-- JavaScript `x || d` for a possibly-absent number with a numeric default
(`0` is falsy). -/
def jsOrNat (o : Option Nat) (d : Nat) : Nat :=
match o with
| none => d
| some n => if n = 0 then d else n

/-- Last binding for a key in a parsed JSON object (later duplicate keys win,
as in JavaScript object literals built by `JSON.parse`). -/
def lookupLast : List (String × JSValue) → String → Option JSValue
| [], _ => none
| (k1, v1) :: rest, k =>
  match lookupLast rest k with
  | some v => some v
  | none => if k1 = k then some v1 else none

/-- JavaScript property access `v.k`: throws a TypeError on `null` and
`undefined`, yields `undefined` for a missing property or a primitive
receiver. -/
def getProp : JSValue → String → Except Unit JSValue
| JSValue.vNull, _ => Except.error ()
| JSValue.vUndef, _ => Except.error ()
| JSValue.vObj fs, k => Except.ok ((lookupLast fs k).getD JSValue.vUndef)
| _, _ => Except.ok JSValue.vUndef

/-- The opening-brace character, written by code point to keep braces out of
literals. -/
def lbraceC : Char := Char.ofNat 123

/-- The closing-brace character. -/
def rbraceC : Char := Char.ofNat 125

/-- Skip JSON whitespace. -/
def skipWs : List Char → List Char
| [] => []
| c :: rest =>
  if c = ' ' || c = '\t' || c = '\n' || c = '\r' then skipWs rest else c :: rest

/-- Decode one JSON string escape character. -/
def escChar : Char → Option Char
| 'n' => some '\n'
| 't' => some '\t'
| 'r' => some '\r'
| 'b' => some (Char.ofNat 8)
| 'f' => some (Char.ofNat 12)
| '/' => some '/'
| '"' => some '"'
| '\\' => some '\\'
| _ => none

/-- Parse the body of a JSON string literal (the opening quote already
consumed), returning the decoded string and the rest of the input. -/
def parseStr : List Char → Option (String × List Char)
| [] => none
| '"' :: rest => some ("", rest)
| '\\' :: e :: rest =>
  match escChar e with
  | none => none
  | some ec =>
    match parseStr rest with
    | none => none
    | some (s, r) => some (String.mk (ec :: s.data), r)
| '\\' :: [] => none
| c :: rest =>
  match parseStr rest with
  | none => none
  | some (s, r) => some (String.mk (c :: s.data), r)

/-- Consume a run of decimal digits. -/
def digitsGo : List Char → Nat → Nat × List Char
| [], acc => (acc, [])
| c :: rest, acc =>
  if c.isDigit then digitsGo rest (acc * 10 + (c.toNat - 48)) else (acc, c :: rest)

/-- Parse a JSON natural-number literal (at least one digit). -/
def parseNat : List Char → Option (Nat × List Char)
| [] => none
| c :: rest => if c.isDigit then some (digitsGo rest (c.toNat - 48)) else none

/-- Fuel-indexed JSON parser.  With the tag `false` it parses one JSON value;
with the tag `true` it parses the members of an object from just after the
opening brace (at least one member), up to and including the closing brace. -/
def parseV : Nat → Bool → List Char → Option (JSValue × List Char)
| 0, _, _ => none
| f + 1, true, cs =>
  match skipWs cs with
  | '"' :: rest =>
    match parseStr rest with
    | none => none
    | some (k, r1) =>
      match skipWs r1 with
      | ':' :: r2 =>
        match parseV f false r2 with
        | none => none
        | some (v, r3) =>
          match skipWs r3 with
          | c :: r4 =>
            if c = ',' then
              match parseV f true r4 with
              | some (JSValue.vObj ms, r5) => some (JSValue.vObj ((k, v) :: ms), r5)
              | _ => none
            else if c = rbraceC then some (JSValue.vObj [(k, v)], r4)
            else none
          | [] => none
      | _ => none
  | _ => none
| f + 1, false, cs =>
  match skipWs cs with
  | [] => none
  | c :: rest =>
    if c = '"' then
      match parseStr rest with
      | none => none
      | some (s, r) => some (JSValue.vStr s, r)
    else if c = lbraceC then
      match skipWs rest with
      | c2 :: r2 =>
        if c2 = rbraceC then some (JSValue.vObj [], r2) else parseV f true rest
      | [] => none
    else if c = 't' then
      match rest with
      | 'r' :: 'u' :: 'e' :: r => some (JSValue.vBool true, r)
      | _ => none
    else if c = 'f' then
      match rest with
      | 'a' :: 'l' :: 's' :: 'e' :: r => some (JSValue.vBool false, r)
      | _ => none
    else if c = 'n' then
      match rest with
      | 'u' :: 'l' :: 'l' :: r => some (JSValue.vNull, r)
      | _ => none
    else if c = '-' then
      match parseNat rest with
      | some (n, r) => some (JSValue.vNum (-(n : Int)), r)
      | none => none
    else if c.isDigit then
      match parseNat (c :: rest) with
      | some (n, r) => some (JSValue.vNum (n : Int), r)
      | none => none
    else none

/-- Model of the browser builtin `JSON.parse`, restricted to the JSON
fragment described at `JSValue`: `none` models a thrown SyntaxError. -/
def jsonParse (s : String) : Option JSValue :=
match parseV (s.length + 1) false s.data with
| some (v, rest) => if skipWs rest = [] then some v else none
| none => none

/-- Storage-key constant `STORAGE_KEY_ASSIGNMENT` applied to a test id
(`STORAGE_KEY_ASSIGNMENT + this.testId`). -/
def assignKey (tid : Option String) : String := "AB_TEST_ASSIGNMENT_" ++ jsStr tid

/-- Dedup-flag key built by `tryLogMetric`
(template `STORAGE_KEY_LOGGED + testId + "_" + actionType`). -/
def flagKey (tid : Option String) (actionType : String) : String :=
"AB_LOGGED_" ++ jsStr tid ++ "_" ++ actionType

/-- The visitor-id storage key `STORAGE_KEY_VISITOR`. -/
def visitorKey : String := "DXFORCE_VISITOR_ID"

/-- The component's fields: the `@api` configuration inputs and the two
internal state fields `assignedVariant` and `visitorId`.  Absent (`undefined`)
inputs are `none`; `previewMode` defaults to "Auto" in the source. -/
structure Component where
  testId : Option String
  imageHeight : Option Nat
  previewMode : String
  variantA_ImageContent : JSValue
  variantA_ImagePosition : Option String
  variantA_Title : Option String
  variantA_Description : Option String
  variantA_ButtonLabel : Option String
  variantA_ButtonUrl : Option String
  variantB_ImageContent : JSValue
  variantB_ImagePosition : Option String
  variantB_Title : Option String
  variantB_Description : Option String
  variantB_ButtonLabel : Option String
  variantB_ButtonUrl : Option String
  assignedVariant : Option String
  visitorId : Option String

/-- A single hexadecimal digit as produced by `v.toString(16)` for
`v` between 0 and 15. -/
def hexDigit (n : Nat) : Char :=
if n < 10 then Char.ofNat (48 + n) else Char.ofNat (87 + n)

/-- Body of `generateUUID`'s `replace` callback applied over the template:
each 'x' or 'y' consumes the next value of the random stream `rs`
(each value models `Math.random()*16|0`). -/
def genGo : List Char → Nat → (Nat → Fin 16) → List Char
| [], _, _ => []
| 'x' :: cs, i, rs => hexDigit (rs i).val :: genGo cs (i + 1) rs
| 'y' :: cs, i, rs => hexDigit (((rs i).val &&& 3) ||| 8) :: genGo cs (i + 1) rs
| c :: cs, i, rs => c :: genGo cs i rs

/-- The template string used by `generateUUID`. -/
def uuidTemplate : List Char := "xxxxxxxx-xxxx-4xxx-yxxx-xxxxxxxxxxxx".data

/-- Model of `generateUUID`, parameterised by the stream of random draws. -/
def generateUUID (rs : Nat → Fin 16) : String := String.mk (genGo uuidTemplate 0 rs)

/-- Model of `initializeVisitorId`: read the visitor key; if the stored value
is falsy, generate a fresh UUID and store it; record the result on the
component. -/
def initializeVisitorId (c : Component) (store : Storage) (rs : Nat → Fin 16) :
    Component × Storage :=
let vid0 := getItem store visitorKey
if truthyStr vid0 then ({ c with visitorId := vid0 }, store)
else
  let vid := generateUUID rs
  ({ c with visitorId := some vid }, setItem store visitorKey vid)

/-- Model of `initializeAssignment`.  `rand` is the value of `Math.random()`
drawn in the fresh-assignment branch (unused in the others). -/
def initializeAssignment (c : Component) (store : Storage) (rand : Rat) :
    Component × Storage :=
if c.previewMode = "Force A" then ({ c with assignedVariant := some "A" }, store)
else if c.previewMode = "Force B" then ({ c with assignedVariant := some "B" }, store)
else if truthyStr c.testId = false then ({ c with assignedVariant := some "A" }, store)
else
  let key := assignKey c.testId
  let stored := getItem store key
  if truthyStr stored then ({ c with assignedVariant := stored }, store)
  else
    let v := if rand < (1 : Rat) / 2 then "A" else "B"
    ({ c with assignedVariant := some v }, setItem store key v)

/-- The payload handed to the `logAction` Apex call. -/
structure Payload where
  testId : Option String
  variant : Option String
  actionType : String
  visitorId : Option String
deriving DecidableEq

/-- Model of `tryLogMetric`: if the dedup flag under the log key is falsy,
dispatch the payload and set the flag to "true"; otherwise do nothing.
The first component is the payload sent to the remote endpoint, if any. -/
def tryLogMetric (c : Component) (store : Storage) (actionType : String) :
    Option Payload × Storage :=
let logKey := flagKey c.testId actionType
if truthyStr (getItem store logKey) then (none, store)
else
  (some { testId := c.testId, variant := c.assignedVariant,
          actionType := actionType, visitorId := c.visitorId },
   setItem store logKey "true")

/-- Model of `tryLogMetric` with the promise outcome of the `logAction` call
made explicit: when a payload is dispatched and the remote call fails
(`remoteOk = false`), the `catch` handler writes one line to the console
diagnostic channel; nothing else depends on the outcome. -/
def tryLogMetricNet (c : Component) (store : Storage) (actionType : String)
    (remoteOk : Bool) : Option Payload × Storage × List String :=
let r := tryLogMetric c store actionType
(r.1, r.2,
  match r.1 with
  | some _ => if remoteOk then [] else ["[AB Test] Logging failed"]
  | none => [])

/-- Model of `renderedCallback`: attempt a View report only in normal (Auto)
operation with an assignment and a test id present. -/
def renderedCallback (c : Component) (store : Storage) : Option Payload × Storage :=
if truthyStr c.assignedVariant && truthyStr c.testId && decide (c.previewMode = "Auto")
then tryLogMetric c store "View"
else (none, store)

/-- Model of `handleButtonClick`: attempt a Click report under the same
condition as `renderedCallback`. -/
def handleButtonClick (c : Component) (store : Storage) : Option Payload × Storage :=
if truthyStr c.assignedVariant && truthyStr c.testId && decide (c.previewMode = "Auto")
then tryLogMetric c store "Click"
else (none, store)

/-- One metric-reporting occasion in the component's life: a render pass or a
button click.  Each carries the component state at that moment (configuration
and assignment may have changed in between). -/
inductive MEv : Type
| render (c : Component) : MEv
| click (c : Component) : MEv

/-- Dispatch one metric event through the corresponding handler. -/
def stepEv : MEv → Storage → Option Payload × Storage
| MEv.render c, store => renderedCallback c store
| MEv.click c, store => handleButtonClick c store

/-- Run a sequence of render/click events, threading storage and collecting
every payload dispatched to the remote endpoint. -/
def runEvents : List MEv → Storage → List Payload × Storage
| [], store => ([], store)
| e :: es, store =>
  let r := stepEv e store
  let rest := runEvents es r.2
  (match r.1 with
   | some p => p :: rest.1
   | none => rest.1, rest.2)

/-- Model of `connectedCallback`: visitor id first, then assignment. -/
def connectedCallback (c : Component) (store : Storage) (rs : Nat → Fin 16)
    (rand : Rat) : Component × Storage :=
let r := initializeVisitorId c store rs
initializeAssignment r.1 r.2 rand

/-- Model of `extractContentKey`.  The `try` body parses string input with
`JSON.parse` and reads `ref.contentKey || ref.id || null`; any throw inside
the body (parse failure, or property access on null) lands in the `catch`,
which returns the raw string for string input and null otherwise. -/
def extractContentKey (contentRef : JSValue) : JSValue :=
if jsTruthy contentRef = false then JSValue.vNull
else
  let parsed : Except Unit JSValue :=
    match contentRef with
    | JSValue.vStr s =>
      match jsonParse s with
      | some v => Except.ok v
      | none => Except.error ()
    | v => Except.ok v
  let body : Except Unit JSValue :=
    match parsed with
    | Except.error e => Except.error e
    | Except.ok ref =>
      match getProp ref "contentKey", getProp ref "id" with
      | Except.ok ck, Except.ok idv => Except.ok (jsOr ck (jsOr idv JSValue.vNull))
      | _, _ => Except.error ()
  match body with
  | Except.ok v => v
  | Except.error _ =>
    match contentRef with
    | JSValue.vStr s => JSValue.vStr s
    | _ => JSValue.vNull

/-- Model of `constructCmsUrl`, parameterised by the imported `basePath`. -/
def constructCmsUrl (basePath : String) (contentKey : JSValue) : Option String :=
if jsTruthy contentKey = false then none
else
  let sp := if basePath ≠ "" then basePath else ""
  some (sp ++ "/sfsites/c/cms/delivery/media/" ++ jsToString contentKey)

/-- Prefix test on character lists (first argument is the prefix). -/
def startsWithL : List Char → List Char → Bool
| [], _ => true
| _ :: _, [] => false
| p :: ps, c :: cs => (p == c) && startsWithL ps cs

/-- The builtin `String.startsWith`, modelled on the underlying character
lists so that it evaluates by reduction. -/
def strStartsWith (s p : String) : Bool := startsWithL p.data s.data

/-- The anchored scheme test `url.match(...)` with pattern
http/https/mailto/tel followed by a colon. -/
def schemeMatch (u : String) : Bool :=
strStartsWith u "http:" || strStartsWith u "https:" || strStartsWith u "mailto:" ||
  strStartsWith u "tel:"

/-- Model of `resolveUrl`, parameterised by the imported `basePath`. -/
def resolveUrl (basePath : String) (url : Option String) : String :=
if truthyStr url = false then "#"
else
  let u := jsStr url
  if schemeMatch u then u
  else
    let path := if strStartsWith u "/" then u else "/" ++ u
    basePath ++ path

/-- The display bundle produced by the `currentData` getter. -/
structure DisplayData where
  imageUrl : Option String
  altText : Option String
  title : Option String
  description : Option String
  buttonLabel : Option String
  buttonUrl : String
  imageStyle : String
deriving DecidableEq

/-- Model of the `currentData` getter, parameterised by `basePath`. -/
def currentData (basePath : String) (c : Component) : DisplayData :=
let isA := decide (c.assignedVariant = some "A")
let key := if isA then extractContentKey c.variantA_ImageContent
           else extractContentKey c.variantB_ImageContent
let title := if isA then c.variantA_Title else c.variantB_Title
let desc := if isA then c.variantA_Description else c.variantB_Description
let btnLabel := if isA then c.variantA_ButtonLabel else c.variantB_ButtonLabel
let btnUrl := if isA then c.variantA_ButtonUrl else c.variantB_ButtonUrl
let position := if isA then jsOrStr c.variantA_ImagePosition "center"
                else jsOrStr c.variantB_ImagePosition "center"
let height := jsOrNat c.imageHeight 400
{ imageUrl := constructCmsUrl basePath key
  altText := title
  title := title
  description := desc
  buttonLabel := btnLabel
  buttonUrl := resolveUrl basePath btnUrl
  imageStyle := "width: 100%; height: " ++ toString height ++
    "px; object-fit: cover; object-position: " ++ position ++ "; border-radius: 4px;" }

/-- Resolve the assignment repeatedly (one `initializeAssignment` run per
random draw in the list), collecting the variant resolved at each step. -/
def resolveMany : Component → Storage → List Rat → List (Option String) × Component × Storage
| c, store, [] => ([], c, store)
| c, store, r :: rs =>
  let p := initializeAssignment c store r
  let rest := resolveMany p.1 p.2 rs
  (p.1.assignedVariant :: rest.1, rest.2)

section StorageLemmas

theorem getItem_setItem_self (s : Storage) (k v : String) :
    getItem (setItem s k v) k = some v := by
  induction s with
  | nil => simp [getItem, setItem]
  | cons hd tl ih =>
    obtain ⟨k1, v1⟩ := hd
    by_cases h : k1 = k
    · simp [getItem, setItem, h]
    · simp [getItem, setItem, h, ih]

theorem getItem_setItem_ne (s : Storage) (k k1 v : String) (h : k1 ≠ k) :
    getItem (setItem s k v) k1 = getItem s k1 := by
  have h2 : k ≠ k1 := Ne.symm h
  induction s with
  | nil => simp [getItem, setItem, h2]
  | cons hd tl ih =>
    obtain ⟨k2, v2⟩ := hd
    by_cases h3 : k2 = k
    · subst h3
      simp [getItem, setItem, h2]
    · by_cases h4 : k2 = k1
      · simp [getItem, setItem, h, h3, h4]
      · simp [getItem, setItem, h3, h4, ih]

theorem truthy_after_set_true (s : Storage) (k k1 : String)
    (h : truthyStr (getItem s k1) = true) :
    truthyStr (getItem (setItem s k "true") k1) = true := by
  by_cases hk : k1 = k
  · subst hk
    simp [getItem_setItem_self, truthyStr]
  · rw [getItem_setItem_ne s k k1 "true" hk]
    exact h

end StorageLemmas

section AssignmentLemmas

theorem init_force_a (c : Component) (store : Storage) (r : Rat)
    (h : c.previewMode = "Force A") :
    initializeAssignment c store r = ({ c with assignedVariant := some "A" }, store) := by
  simp [initializeAssignment, h]

theorem init_force_b (c : Component) (store : Storage) (r : Rat)
    (h : c.previewMode = "Force B") :
    initializeAssignment c store r = ({ c with assignedVariant := some "B" }, store) := by
  simp [initializeAssignment, h]

theorem init_no_test (c : Component) (store : Storage) (r : Rat)
    (h1 : c.previewMode ≠ "Force A") (h2 : c.previewMode ≠ "Force B")
    (h3 : truthyStr c.testId = false) :
    initializeAssignment c store r = ({ c with assignedVariant := some "A" }, store) := by
  simp [initializeAssignment, h1, h2, h3]

theorem truthy_some (v : String) (hne : v ≠ "") : truthyStr (some v) = true := by
  simp [truthyStr, hne]

theorem draw_ne_empty (r : Rat) : (if r < (1 : Rat) / 2 then "A" else "B") ≠ "" := by
  split <;> simp

theorem draw_a_or_b (r : Rat) :
    (if r < (1 : Rat) / 2 then "A" else "B") = "A" ∨
      (if r < (1 : Rat) / 2 then "A" else "B") = "B" := by
  split
  · exact Or.inl rfl
  · exact Or.inr rfl

theorem init_auto_stored (c : Component) (store : Storage) (r : Rat) (v : String)
    (hm : c.previewMode = "Auto") (ht : truthyStr c.testId = true)
    (hv : getItem store (assignKey c.testId) = some v) (hne : v ≠ "") :
    initializeAssignment c store r = ({ c with assignedVariant := some v }, store) := by
  have htr : truthyStr (some v) = true := truthy_some v hne
  simp [initializeAssignment, hm, ht, hv, htr]

theorem init_auto_fresh (c : Component) (store : Storage) (r : Rat)
    (hm : c.previewMode = "Auto") (ht : truthyStr c.testId = true)
    (hs : truthyStr (getItem store (assignKey c.testId)) = false) :
    initializeAssignment c store r =
      ({ c with assignedVariant := some (if r < (1 : Rat) / 2 then "A" else "B") },
       setItem store (assignKey c.testId) (if r < (1 : Rat) / 2 then "A" else "B")) := by
  simp [initializeAssignment, hm, ht, hs]

theorem init_auto_establishes (c : Component) (store : Storage) (r : Rat)
    (hm : c.previewMode = "Auto") (ht : truthyStr c.testId = true) :
    ∃ v : String, v ≠ "" ∧
      (initializeAssignment c store r).1.assignedVariant = some v ∧
      getItem (initializeAssignment c store r).2 (assignKey c.testId) = some v ∧
      (initializeAssignment c store r).1.previewMode = "Auto" ∧
      (initializeAssignment c store r).1.testId = c.testId := by
  by_cases hs : truthyStr (getItem store (assignKey c.testId)) = true
  · obtain ⟨v, hv⟩ : ∃ v, getItem store (assignKey c.testId) = some v := by
      cases h : getItem store (assignKey c.testId) with
      | none => rw [h] at hs; simp [truthyStr] at hs
      | some v => exact ⟨v, rfl⟩
    have hne : v ≠ "" := by
      rw [hv] at hs; simpa [truthyStr] using hs
    refine ⟨v, hne, ?_⟩
    rw [init_auto_stored c store r v hm ht hv hne]
    simp [hv, hm]
  · have hs2 : truthyStr (getItem store (assignKey c.testId)) = false := by
      simpa using hs
    refine ⟨if r < (1 : Rat) / 2 then "A" else "B", draw_ne_empty r, ?_⟩
    rw [init_auto_fresh c store r hm ht hs2]
    simp [getItem_setItem_self, hm]

theorem component_eta_assigned (c : Component) (x : Option String)
    (h : c.assignedVariant = x) : { c with assignedVariant := x } = c := by
  cases c
  simp_all

theorem resolveMany_steady (rlist : List Rat) :
    ∀ (c : Component) (store : Storage) (v : String),
      c.previewMode = "Auto" → truthyStr c.testId = true →
      getItem store (assignKey c.testId) = some v → v ≠ "" →
      c.assignedVariant = some v →
      resolveMany c store rlist = (rlist.map (fun _ => some v), c, store) := by
  induction rlist with
  | nil => intro c store v hm ht hv hne ha; simp [resolveMany]
  | cons r rs ih =>
    intro c store v hm ht hv hne ha
    have hstep := init_auto_stored c store r v hm ht hv hne
    have hcomp : ({ c with assignedVariant := some v } : Component) = c :=
      component_eta_assigned c (some v) ha
    simp only [resolveMany, hstep, hcomp]
    rw [ih c store v hm ht hv hne ha]
    simp [ha]

end AssignmentLemmas

section MetricLemmas

/-- The component carried by a metric event. -/
def evComp : MEv → Component
| MEv.render c => c
| MEv.click c => c

/-- The action type reported by a metric event. -/
def evAct : MEv → String
| MEv.render _ => "View"
| MEv.click _ => "Click"

/-- Whether a dispatched payload belongs to the given (testId, actionType)
pair. -/
def pMatch (tid : Option String) (a : String) (p : Payload) : Bool :=
decide (p.testId = tid) && decide (p.actionType = a)

theorem tryLogMetric_flagged (c : Component) (store : Storage) (a : String)
    (h : truthyStr (getItem store (flagKey c.testId a)) = true) :
    tryLogMetric c store a = (none, store) := by
  simp [tryLogMetric, h]

theorem tryLogMetric_unflagged (c : Component) (store : Storage) (a : String)
    (h : truthyStr (getItem store (flagKey c.testId a)) = false) :
    tryLogMetric c store a =
      (some { testId := c.testId, variant := c.assignedVariant,
              actionType := a, visitorId := c.visitorId },
       setItem store (flagKey c.testId a) "true") := by
  simp [tryLogMetric, h]

theorem tryLogMetric_preserves_flag (c : Component) (store : Storage) (a k : String)
    (h : truthyStr (getItem store k) = true) :
    truthyStr (getItem (tryLogMetric c store a).2 k) = true := by
  by_cases hf : truthyStr (getItem store (flagKey c.testId a)) = true
  · rw [tryLogMetric_flagged c store a hf]
    exact h
  · have hf2 : truthyStr (getItem store (flagKey c.testId a)) = false := by simpa using hf
    rw [tryLogMetric_unflagged c store a hf2]
    exact truthy_after_set_true store (flagKey c.testId a) k h

theorem tryLogMetric_send (c : Component) (store : Storage) (a : String) (p : Payload)
    (h : (tryLogMetric c store a).1 = some p) :
    p.testId = c.testId ∧ p.actionType = a ∧
      truthyStr (getItem store (flagKey c.testId a)) = false ∧
      (tryLogMetric c store a).2 = setItem store (flagKey c.testId a) "true" := by
  by_cases hf : truthyStr (getItem store (flagKey c.testId a)) = true
  · rw [tryLogMetric_flagged c store a hf] at h
    simp at h
  · have hf2 : truthyStr (getItem store (flagKey c.testId a)) = false := by simpa using hf
    rw [tryLogMetric_unflagged c store a hf2] at h
    simp only [Option.some.injEq] at h
    subst h
    exact ⟨rfl, rfl, hf2, by rw [tryLogMetric_unflagged c store a hf2]⟩

theorem stepEv_eq (e : MEv) (store : Storage) :
    stepEv e store =
      (if (truthyStr (evComp e).assignedVariant && truthyStr (evComp e).testId &&
          decide ((evComp e).previewMode = "Auto")) = true
       then tryLogMetric (evComp e) store (evAct e)
       else (none, store)) := by
  cases e <;> rfl

theorem stepEv_preserves_flag (e : MEv) (store : Storage) (k : String)
    (h : truthyStr (getItem store k) = true) :
    truthyStr (getItem (stepEv e store).2 k) = true := by
  rw [stepEv_eq]
  split
  · exact tryLogMetric_preserves_flag _ _ _ _ h
  · exact h

theorem stepEv_send (e : MEv) (store : Storage) (p : Payload)
    (h : (stepEv e store).1 = some p) :
    truthyStr (getItem store (flagKey p.testId p.actionType)) = false ∧
      (stepEv e store).2 = setItem store (flagKey p.testId p.actionType) "true" := by
  rw [stepEv_eq] at h
  by_cases hg : (truthyStr (evComp e).assignedVariant && truthyStr (evComp e).testId &&
      decide ((evComp e).previewMode = "Auto")) = true
  · rw [if_pos hg] at h
    obtain ⟨h1, h2, h3, h4⟩ := tryLogMetric_send (evComp e) store (evAct e) p h
    constructor
    · rw [h1, h2]
      exact h3
    · rw [stepEv_eq, if_pos hg, h1, h2]
      exact h4
  · rw [if_neg hg] at h
    simp at h

theorem runEvents_no_match_of_flag (tid : Option String) (a : String) :
    ∀ (es : List MEv) (store : Storage),
      truthyStr (getItem store (flagKey tid a)) = true →
      ∀ p ∈ (runEvents es store).1, pMatch tid a p = false := by
  intro es
  induction es with
  | nil =>
    intro store h p hp
    simp [runEvents] at hp
  | cons e es ih =>
    intro store h p hp
    cases hsend : (stepEv e store).1 with
    | none =>
      rw [runEvents] at hp
      rw [hsend] at hp
      exact ih (stepEv e store).2 (stepEv_preserves_flag e store _ h) p hp
    | some p0 =>
      rw [runEvents] at hp
      rw [hsend] at hp
      rcases List.mem_cons.mp hp with hp0 | hprest
      · subst hp0
        obtain ⟨hflag, _⟩ := stepEv_send e store p hsend
        by_cases hm2 : pMatch tid a p = true
        · exfalso
          have h1 : p.testId = tid := by
            have := (Bool.and_eq_true _ _).mp hm2
            exact of_decide_eq_true this.1
          have h2 : p.actionType = a := by
            have := (Bool.and_eq_true _ _).mp hm2
            exact of_decide_eq_true this.2
          rw [h1, h2] at hflag
          rw [h] at hflag
          simp at hflag
        · simpa using hm2
      · exact ih (stepEv e store).2 (stepEv_preserves_flag e store _ h) p hprest

theorem runEvents_count (tid : Option String) (a : String) :
    ∀ (es : List MEv) (store : Storage),
      ((runEvents es store).1.filter (pMatch tid a)).length ≤ 1 := by
  intro es
  induction es with
  | nil =>
    intro store
    simp [runEvents]
  | cons e es ih =>
    intro store
    cases hsend : (stepEv e store).1 with
    | none =>
      have heq : (runEvents (e :: es) store).1 = (runEvents es (stepEv e store).2).1 := by
        rw [runEvents, hsend]
      rw [heq]
      exact ih (stepEv e store).2
    | some p0 =>
      have heq : (runEvents (e :: es) store).1 = p0 :: (runEvents es (stepEv e store).2).1 := by
        rw [runEvents, hsend]
      rw [heq]
      by_cases hm2 : pMatch tid a p0 = true
      · obtain ⟨hflag, hset⟩ := stepEv_send e store p0 hsend
        have h1 : p0.testId = tid := by
          have := (Bool.and_eq_true _ _).mp hm2
          exact of_decide_eq_true this.1
        have h2 : p0.actionType = a := by
          have := (Bool.and_eq_true _ _).mp hm2
          exact of_decide_eq_true this.2
        have hTrue : truthyStr (getItem (stepEv e store).2 (flagKey tid a)) = true := by
          rw [hset, h1, h2, getItem_setItem_self]
          simp [truthyStr]
        have hnil : (runEvents es (stepEv e store).2).1.filter (pMatch tid a) = [] := by
          apply List.filter_eq_nil_iff.mpr
          intro p hp
          simp [runEvents_no_match_of_flag tid a es (stepEv e store).2 hTrue p hp]
        simp [List.filter, hm2, hnil]
      · have hm3 : pMatch tid a p0 = false := by simpa using hm2
        simp only [List.filter, hm3]
        exact ih (stepEv e store).2

end MetricLemmas

section SampleData

/-- A concrete component configuration used by the witness theorems. -/
def cSample : Component :=
{ testId := some "t1"
  imageHeight := none
  previewMode := "Auto"
  variantA_ImageContent := JSValue.vStr "k1"
  variantA_ImagePosition := none
  variantA_Title := some "Title A"
  variantA_Description := some "Desc A"
  variantA_ButtonLabel := some "Go A"
  variantA_ButtonUrl := some "foo"
  variantB_ImageContent := JSValue.vStr "k2"
  variantB_ImagePosition := none
  variantB_Title := some "Title B"
  variantB_Description := some "Desc B"
  variantB_ButtonLabel := some "Go B"
  variantB_ButtonUrl := some "bar"
  assignedVariant := some "A"
  visitorId := some "visitor-1" }

end SampleData

section Claims1to6

/-- C1: for every visitor and configured testId, once an assignment value is
persisted under the assignment storage key, every resolution in Auto mode
returns that stored value and leaves storage unchanged; consequently any
number of further resolutions (in particular two in succession) after a first
one all yield the variant the first one resolved, with no storage change. -/
theorem assignment_sticky_in_auto (c : Component) (store : Storage) (r1 : Rat)
    (rlist : List Rat) (hm : c.previewMode = "Auto") (ht : truthyStr c.testId = true) :
    (∀ v : String, getItem store (assignKey c.testId) = some v → v ≠ "" →
       initializeAssignment c store r1 = ({ c with assignedVariant := some v }, store)) ∧
    (∀ x ∈ (resolveMany (initializeAssignment c store r1).1
        (initializeAssignment c store r1).2 rlist).1,
       x = (initializeAssignment c store r1).1.assignedVariant) ∧
    (resolveMany (initializeAssignment c store r1).1
        (initializeAssignment c store r1).2 rlist).2.2 = (initializeAssignment c store r1).2 := by
  obtain ⟨v, hne, ha, hkey, hm2, ht2⟩ := init_auto_establishes c store r1 hm ht
  have ht3 : truthyStr (initializeAssignment c store r1).1.testId = true := by
    rw [ht2]; exact ht
  have hkey2 : getItem (initializeAssignment c store r1).2
      (assignKey (initializeAssignment c store r1).1.testId) = some v := by
    rw [ht2]; exact hkey
  have hsteady := resolveMany_steady rlist (initializeAssignment c store r1).1
    (initializeAssignment c store r1).2 v hm2 ht3 hkey2 hne ha
  refine ⟨?_, ?_, ?_⟩
  · intro w hw hwne
    exact init_auto_stored c store r1 w hm ht hw hwne
  · intro x hx
    rw [hsteady] at hx
    simp only [List.mem_map] at hx
    obtain ⟨_, _, hxv⟩ := hx
    rw [← hxv, ha]
  · rw [hsteady]

/-- Closed instance of C1: with "B" already persisted for test t1, a
resolution returns "B" untouched, and three further resolutions all yield
that same variant with no storage change. -/
theorem assignment_sticky_in_auto_witness :
    initializeAssignment cSample [(assignKey (some "t1"), "B")] 0 =
      ({ cSample with assignedVariant := some "B" }, [(assignKey (some "t1"), "B")]) ∧
    (∀ x ∈ (resolveMany (initializeAssignment cSample [(assignKey (some "t1"), "B")] 0).1
        (initializeAssignment cSample [(assignKey (some "t1"), "B")] 0).2 [0, 1/2, 1/4]).1,
      x = (initializeAssignment cSample [(assignKey (some "t1"), "B")] 0).1.assignedVariant) := by
  have h := assignment_sticky_in_auto cSample [(assignKey (some "t1"), "B")] 0
    [0, 1/2, 1/4] (by decide) (by decide)
  exact ⟨h.1 "B" (by decide) (by decide), h.2.1⟩

/-- C2: over any sequence of render passes and clicks, at most one payload
for a given (testId, actionType) pair is ever dispatched, and once the dedup
flag for that pair is truthy in storage, no later render or click dispatches
anything for the pair. -/
theorem metric_logged_at_most_once (tid : Option String) (a : String)
    (es : List MEv) (store : Storage) :
    (truthyStr (getItem store (flagKey tid a)) = true →
       (runEvents es store).1.filter (pMatch tid a) = []) ∧
    ((runEvents es store).1.filter (pMatch tid a)).length ≤ 1 := by
  constructor
  · intro h
    apply List.filter_eq_nil_iff.mpr
    intro p hp
    simp [runEvents_no_match_of_flag tid a es store h p hp]
  · exact runEvents_count tid a es store

/-- Closed instance of C2: with the View flag for t1 already stored, two
render passes and a click send nothing for (t1, View). -/
theorem metric_logged_at_most_once_witness :
    truthyStr (getItem [(flagKey (some "t1") "View", "true")] (flagKey (some "t1") "View")) = true ∧
    (runEvents [MEv.render cSample, MEv.render cSample, MEv.click cSample]
        [(flagKey (some "t1") "View", "true")]).1.filter (pMatch (some "t1") "View") = [] :=
  ⟨by decide,
   (metric_logged_at_most_once (some "t1") "View"
      [MEv.render cSample, MEv.render cSample, MEv.click cSample]
      [(flagKey (some "t1") "View", "true")]).1 (by decide)⟩

/-- C3: a "Force A" / "Force B" override resolves to exactly the forced
variant and returns the storage value it was given, completely unmodified,
whatever that storage holds. -/
theorem forced_mode_pure (c : Component) (store : Storage) (r : Rat) :
    (c.previewMode = "Force A" →
       initializeAssignment c store r = ({ c with assignedVariant := some "A" }, store)) ∧
    (c.previewMode = "Force B" →
       initializeAssignment c store r = ({ c with assignedVariant := some "B" }, store)) :=
  ⟨init_force_a c store r, init_force_b c store r⟩

/-- Closed instance of C3: forcing A over a persisted "B" (and B over a
persisted "A") yields the forced variant and the exact same storage. -/
theorem forced_mode_pure_witness :
    initializeAssignment { cSample with previewMode := "Force A" }
        [(assignKey (some "t1"), "B")] 0 =
      ({ cSample with previewMode := "Force A", assignedVariant := some "A" },
       [(assignKey (some "t1"), "B")]) ∧
    initializeAssignment { cSample with previewMode := "Force B" }
        [(assignKey (some "t1"), "A")] 0 =
      ({ cSample with previewMode := "Force B", assignedVariant := some "B" },
       [(assignKey (some "t1"), "A")]) :=
  ⟨(forced_mode_pure { cSample with previewMode := "Force A" }
      [(assignKey (some "t1"), "B")] 0).1 rfl,
   (forced_mode_pure { cSample with previewMode := "Force B" }
      [(assignKey (some "t1"), "A")] 0).2 rfl⟩

/-- C4: in Auto mode with a configured testId and no truthy persisted value,
resolution draws "A" exactly when the random draw is below one half (so both
variants are reachable), persists the drawn value under the assignment key,
and the stored value equals the returned value. -/
theorem auto_fresh_draw_persists (c : Component) (store : Storage) (r : Rat)
    (hm : c.previewMode = "Auto") (ht : truthyStr c.testId = true)
    (hs : truthyStr (getItem store (assignKey c.testId)) = false) :
    initializeAssignment c store r =
      ({ c with assignedVariant := some (if r < (1 : Rat) / 2 then "A" else "B") },
       setItem store (assignKey c.testId) (if r < (1 : Rat) / 2 then "A" else "B")) ∧
    getItem (initializeAssignment c store r).2 (assignKey c.testId) =
      (initializeAssignment c store r).1.assignedVariant ∧
    ((if r < (1 : Rat) / 2 then "A" else "B") = "A" ↔ r < (1 : Rat) / 2) ∧
    ((if r < (1 : Rat) / 2 then "A" else "B") = "A" ∨
      (if r < (1 : Rat) / 2 then "A" else "B") = "B") := by
  have hmain := init_auto_fresh c store r hm ht hs
  refine ⟨hmain, ?_, ?_, draw_a_or_b r⟩
  · rw [hmain]
    simp [getItem_setItem_self]
  · constructor
    · intro hA
      by_contra hr
      rw [if_neg hr] at hA
      exact absurd hA (by decide)
    · intro hr
      rw [if_pos hr]

/-- Closed instance of C4: from empty storage, the draw 0 yields "A" and the
draw 3/4 yields "B", each persisted under the assignment key. -/
theorem auto_fresh_draw_persists_witness :
    initializeAssignment cSample [] 0 =
      ({ cSample with assignedVariant := some "A" }, [(assignKey (some "t1"), "A")]) ∧
    initializeAssignment cSample [] (3 / 4) =
      ({ cSample with assignedVariant := some "B" }, [(assignKey (some "t1"), "B")]) := by
  have hA := (auto_fresh_draw_persists cSample [] 0 (by decide) (by decide) (by decide)).1
  have hB := (auto_fresh_draw_persists cSample [] (3 / 4) (by decide) (by decide) (by decide)).1
  norm_num at hA hB
  exact ⟨hA, hB⟩

/-- C5: the dedup flag is written regardless of the remote call's outcome
(the resulting storage is identical for a succeeding and a failing call, and
holds "true" under the flag key whenever a payload was dispatched); a failing
call produces only a diagnostic line, and when nothing is dispatched nothing
at all changes. -/
theorem flag_set_regardless_of_outcome (c : Component) (store : Storage) (a : String) :
    (tryLogMetricNet c store a true).1 = (tryLogMetricNet c store a false).1 ∧
    (tryLogMetricNet c store a true).2.1 = (tryLogMetricNet c store a false).2.1 ∧
    (∀ ok : Bool, ∀ p : Payload, (tryLogMetricNet c store a ok).1 = some p →
       (tryLogMetricNet c store a ok).2.1 = setItem store (flagKey c.testId a) "true" ∧
       getItem (tryLogMetricNet c store a ok).2.1 (flagKey c.testId a) = some "true") ∧
    (∀ p : Payload, (tryLogMetricNet c store a false).1 = some p →
       (tryLogMetricNet c store a false).2.2 = ["[AB Test] Logging failed"]) ∧
    ((tryLogMetricNet c store a false).1 = none →
       (tryLogMetricNet c store a false).2.1 = store ∧
       (tryLogMetricNet c store a false).2.2 = []) := by
  refine ⟨rfl, rfl, ?_, ?_, ?_⟩
  · intro ok p hp
    have hp2 : (tryLogMetric c store a).1 = some p := hp
    obtain ⟨_, _, _, h4⟩ := tryLogMetric_send c store a p hp2
    constructor
    · exact h4
    · show getItem (tryLogMetric c store a).2 (flagKey c.testId a) = some "true"
      rw [h4, getItem_setItem_self]
  · intro p hp
    have hp2 : (tryLogMetric c store a).1 = some p := hp
    simp [tryLogMetricNet, hp2]
  · intro hnone
    have hn2 : (tryLogMetric c store a).1 = none := hnone
    by_cases hf : truthyStr (getItem store (flagKey c.testId a)) = true
    · have := tryLogMetric_flagged c store a hf
      constructor
      · show (tryLogMetric c store a).2 = store
        rw [this]
      · simp [tryLogMetricNet, hn2]
    · have hf2 : truthyStr (getItem store (flagKey c.testId a)) = false := by simpa using hf
      have := tryLogMetric_unflagged c store a hf2
      rw [this] at hn2
      simp at hn2

/-- Closed instance of C5: for a fresh flag, success and failure of the
remote call produce the same storage with the flag set; the failing run logs
one diagnostic line. -/
theorem flag_set_regardless_of_outcome_witness :
    (tryLogMetricNet cSample [] "View" true).2.1 = (tryLogMetricNet cSample [] "View" false).2.1 ∧
    getItem (tryLogMetricNet cSample [] "View" false).2.1 (flagKey (some "t1") "View") = some "true" ∧
    (tryLogMetricNet cSample [] "View" false).2.2 = ["[AB Test] Logging failed"] := by
  have h := flag_set_regardless_of_outcome cSample [] "View"
  refine ⟨h.2.1,
    (h.2.2.1 false (Payload.mk (some "t1") (some "A") "View" (some "visitor-1")) (by decide)).2,
    h.2.2.2.1 (Payload.mk (some "t1") (some "A") "View" (some "visitor-1")) (by decide)⟩

/-- C6: with no configured testId and an override mode that is not a forced
pattern, resolution yields "A" and writes nothing to storage. -/
theorem no_test_defaults_a (c : Component) (store : Storage) (r : Rat)
    (h1 : truthyStr c.testId = false) (h2 : c.previewMode ≠ "Force A")
    (h3 : c.previewMode ≠ "Force B") :
    initializeAssignment c store r = ({ c with assignedVariant := some "A" }, store) :=
  init_no_test c store r h2 h3 h1

/-- Closed instance of C6: with testId absent, Auto resolution over a
nonempty storage yields "A" and that same storage. -/
theorem no_test_defaults_a_witness :
    initializeAssignment { cSample with testId := none } [("X", "Y")] (3 / 4) =
      ({ cSample with testId := none, assignedVariant := some "A" }, [("X", "Y")]) :=
  no_test_defaults_a { cSample with testId := none } [("X", "Y")] (3 / 4)
    (by decide) (by decide) (by decide)

end Claims1to6

section UuidLemmas

/-- Hexadecimal-digit test used by the UUID-format checker. -/
def isHexCh (ch : Char) : Bool := ("0123456789abcdef".data).contains ch

/-- Character-by-character check of a candidate against a UUID template:
each 'x' must face a lowercase hexadecimal digit, the 'y' must face one of
8/9/a/b, and every other template character (the hyphens and the version
digit '4') must be matched verbatim, with equal overall length. -/
def matchesTemplate : List Char → List Char → Bool
| [], [] => true
| 'x' :: ts, c :: cs => isHexCh c && matchesTemplate ts cs
| 'y' :: ts, c :: cs =>
  (c == '8' || c == '9' || c == 'a' || c == 'b') && matchesTemplate ts cs
| t :: ts, c :: cs => (c == t) && matchesTemplate ts cs
| _, _ => false

/-- UUID-v4 shape: 36 characters, hyphens at positions 8, 13, 18 and 23,
version digit '4' at position 14, variant character among 8/9/a/b at
position 19, lowercase hexadecimal digits everywhere else — that is, the
shape of the template "xxxxxxxx-xxxx-4xxx-yxxx-xxxxxxxxxxxx". -/
def isUuidV4 (s : String) : Bool := matchesTemplate uuidTemplate s.data

theorem isHexCh_hexDigit : ∀ r : Fin 16, isHexCh (hexDigit r.val) = true := by decide

theorem yChar_ok : ∀ r : Fin 16,
    (hexDigit ((r.val &&& 3) ||| 8) == '8' || hexDigit ((r.val &&& 3) ||| 8) == '9' ||
      hexDigit ((r.val &&& 3) ||| 8) == 'a' || hexDigit ((r.val &&& 3) ||| 8) == 'b') = true := by
  decide

theorem genGo_matches : ∀ (t : List Char) (i : Nat) (rs : Nat → Fin 16),
    matchesTemplate t (genGo t i rs) = true := by
  intro t
  induction t with
  | nil => intro i rs; rfl
  | cons c ts ih =>
    intro i rs
    by_cases hx : c = 'x'
    · subst hx
      simp [genGo, matchesTemplate, isHexCh_hexDigit, ih]
    · by_cases hy : c = 'y'
      · subst hy
        simp [genGo, matchesTemplate, yChar_ok, ih]
      · simp [genGo, matchesTemplate, hx, hy, ih]

theorem uuid_format (rs : Nat → Fin 16) : isUuidV4 (generateUUID rs) = true :=
  genGo_matches uuidTemplate 0 rs

end UuidLemmas

section Claim7

/-- C7: the visitor-identity routine reads the visitor storage key; a present
(truthy) value is returned unchanged with no write; an absent value leads to
a freshly generated pseudo-random UUID-v4-format string being stored under
the key and returned.  The routine is total: the model's only non-success
read outcome (absence) is handled by generating anew, never by an error. -/
theorem visitor_id_spec (c : Component) (store : Storage) (rs : Nat → Fin 16) :
    (∀ v : String, getItem store visitorKey = some v → v ≠ "" →
       initializeVisitorId c store rs = ({ c with visitorId := some v }, store)) ∧
    (truthyStr (getItem store visitorKey) = false →
       initializeVisitorId c store rs =
         ({ c with visitorId := some (generateUUID rs) },
          setItem store visitorKey (generateUUID rs))) ∧
    isUuidV4 (generateUUID rs) = true := by
  refine ⟨?_, ?_, uuid_format rs⟩
  · intro v hv hne
    simp [initializeVisitorId, hv, truthy_some v hne]
  · intro hf
    simp [initializeVisitorId, hf]

/-- Closed instance of C7: a stored visitor id is returned as is; from empty
storage the all-zero draw stream produces and stores
"00000000-0000-4000-8000-000000000000", which is UUID-v4-shaped. -/
theorem visitor_id_spec_witness :
    initializeVisitorId cSample [(visitorKey, "vid-123")] (fun _ => (0 : Fin 16)) =
      ({ cSample with visitorId := some "vid-123" }, [(visitorKey, "vid-123")]) ∧
    initializeVisitorId cSample [] (fun _ => (0 : Fin 16)) =
      ({ cSample with visitorId := some "00000000-0000-4000-8000-000000000000" },
       [(visitorKey, "00000000-0000-4000-8000-000000000000")]) ∧
    isUuidV4 "00000000-0000-4000-8000-000000000000" = true := by
  have h1 := (visitor_id_spec cSample [(visitorKey, "vid-123")] (fun _ => (0 : Fin 16))).1
    "vid-123" (by decide) (by decide)
  have h2 := (visitor_id_spec cSample [] (fun _ => (0 : Fin 16))).2.1 (by decide)
  have h3 := (visitor_id_spec cSample [] (fun _ => (0 : Fin 16))).2.2
  exact ⟨h1, h2, h3⟩

end Claim7

section Claim8

/-- Modelled from the spec: the value the spec's words prescribe for the
non-scheme branch — the site prefix followed by the input carrying exactly
one leading slash.  Kept for comparison with `resolveUrl`. -/
def specSingleSlash (basePath u : String) : String :=
basePath ++ "/" ++ String.mk (u.data.dropWhile (fun ch => ch = '/'))

/-- C8 counterexample: for the non-empty, non-scheme input "//foo" the code
returns the input verbatim after the prefix, keeping both leading slashes,
so the result is not the input with exactly one leading slash. -/
theorem resolveUrl_double_slash_cex :
    resolveUrl "/s" (some "//foo") = "/s//foo" ∧
    specSingleSlash "/s" "//foo" = "/s/foo" ∧
    resolveUrl "/s" (some "//foo") ≠ specSingleSlash "/s" "//foo" := by
  refine ⟨rfl, rfl, ?_⟩
  decide

/-- C8 as amended: empty input yields "#"; an input matching the
http/https/mailto/tel scheme pattern is returned unchanged; any other
non-empty input is returned as the site prefix followed by the input with a
slash prepended only when the input does not already start with one (at
least one leading slash, exactly one when the input had none). -/
theorem resolveUrl_amended (basePath : String) (u : Option String) :
    (truthyStr u = false → resolveUrl basePath u = "#") ∧
    (∀ s : String, u = some s → schemeMatch s = true → resolveUrl basePath u = s) ∧
    (∀ s : String, u = some s → s ≠ "" → schemeMatch s = false →
       resolveUrl basePath u =
         basePath ++ (if strStartsWith s "/" then s else "/" ++ s) ∧
       (strStartsWith s "/" = false → resolveUrl basePath u = basePath ++ "/" ++ s)) := by
  refine ⟨?_, ?_, ?_⟩
  · intro h
    simp [resolveUrl, h]
  · intro s hs hm
    subst hs
    have hne : s ≠ "" := by
      intro he
      subst he
      exact absurd hm (by decide)
    simp [resolveUrl, truthy_some s hne, jsStr, hm]
  · intro s hs hne hm
    subst hs
    have hb : truthyStr (some s) = true := truthy_some s hne
    constructor
    · simp [resolveUrl, hb, jsStr, hm]
    · intro hsw
      simp [resolveUrl, hb, jsStr, hm, hsw]
      rw [← String.append_assoc]

/-- Closed instance of the amended C8: "#" for an absent url, "tel:123"
unchanged, and "/s/foo" for the plain input "foo" under prefix "/s". -/
theorem resolveUrl_amended_witness :
    resolveUrl "/s" none = "#" ∧
    resolveUrl "/s" (some "tel:123") = "tel:123" ∧
    resolveUrl "/s" (some "foo") = "/s" ++ "/" ++ "foo" :=
  ⟨(resolveUrl_amended "/s" none).1 (by decide),
   (resolveUrl_amended "/s" (some "tel:123")).2.1 "tel:123" rfl (by decide),
   ((resolveUrl_amended "/s" (some "foo")).2.2 "foo" rfl (by decide) (by decide)).2 (by decide)⟩

end Claim8

section Claim9

/-- The JSON-string encoding of the object carrying contentKey "k1". -/
def jsonK1 : String := "\x7b\"contentKey\":\"k1\"\x7d"

/-- C9: the content-key extractor accepts a structured object or a raw
string; it yields the contentKey field when truthy, else the id field when
truthy, else null; a JSON-encoded object behaves as the object itself; an
unparseable non-empty string falls back to the raw string as the key; a
missing (falsy) input yields null.  In particular the object carrying
contentKey "k1", its JSON encoding, and the bare string "k1" all yield "k1".
The function is total — every outcome, including the parse-failure path, is
a returned value, never a propagated exception. -/
theorem extract_content_key_spec (fs : List (String × JSValue)) (s : String) :
    extractContentKey JSValue.vUndef = JSValue.vNull ∧
    extractContentKey JSValue.vNull = JSValue.vNull ∧
    extractContentKey (JSValue.vStr "") = JSValue.vNull ∧
    extractContentKey (JSValue.vObj [("contentKey", JSValue.vStr "k1")]) = JSValue.vStr "k1" ∧
    extractContentKey (JSValue.vStr jsonK1) = JSValue.vStr "k1" ∧
    extractContentKey (JSValue.vStr "k1") = JSValue.vStr "k1" ∧
    (jsonParse s = none → s ≠ "" → extractContentKey (JSValue.vStr s) = JSValue.vStr s) ∧
    (extractContentKey (JSValue.vObj fs) =
       jsOr ((lookupLast fs "contentKey").getD JSValue.vUndef)
         (jsOr ((lookupLast fs "id").getD JSValue.vUndef) JSValue.vNull)) := by
  refine ⟨rfl, rfl, rfl, rfl, rfl, rfl, ?_, ?_⟩
  · intro hp hne
    simp [extractContentKey, jsTruthy, hne, hp]
  · simp [extractContentKey, jsTruthy, getProp]

/-- Closed instance of C9: an unparseable string is returned as its own key,
and an object with only an id field yields that id. -/
theorem extract_content_key_spec_witness :
    jsonParse "~not json" = none ∧
    extractContentKey (JSValue.vStr "~not json") = JSValue.vStr "~not json" ∧
    extractContentKey (JSValue.vObj [("id", JSValue.vStr "i1")]) = JSValue.vStr "i1" := by
  refine ⟨rfl, ?_, ?_⟩
  · exact (extract_content_key_spec [] "~not json").2.2.2.2.2.2.1 rfl (by decide)
  · have h := (extract_content_key_spec [("id", JSValue.vStr "i1")] "x").2.2.2.2.2.2.2
    rw [h]
    rfl

end Claim9

section Claim10

/-- C10: the display-bundle projection compares the assigned variant with the
exact string "A" and selects variant B's content fields for every other
value — including a corrupted or foreign string read back from storage
(which Auto-mode resolution adopts without validation) and an unset
assignment; only the exact value "A" selects variant A's fields. -/
theorem variant_selection_unvalidated (basePath : String) (c : Component)
    (store : Storage) (r : Rat) (v : String) :
    (c.assignedVariant ≠ some "A" →
       (currentData basePath c).title = c.variantB_Title ∧
       (currentData basePath c).description = c.variantB_Description ∧
       (currentData basePath c).buttonLabel = c.variantB_ButtonLabel ∧
       (currentData basePath c).buttonUrl = resolveUrl basePath c.variantB_ButtonUrl ∧
       (currentData basePath c).imageUrl =
         constructCmsUrl basePath (extractContentKey c.variantB_ImageContent)) ∧
    (c.assignedVariant = some "A" →
       (currentData basePath c).title = c.variantA_Title ∧
       (currentData basePath c).description = c.variantA_Description ∧
       (currentData basePath c).buttonLabel = c.variantA_ButtonLabel ∧
       (currentData basePath c).buttonUrl = resolveUrl basePath c.variantA_ButtonUrl ∧
       (currentData basePath c).imageUrl =
         constructCmsUrl basePath (extractContentKey c.variantA_ImageContent)) ∧
    (c.previewMode = "Auto" → truthyStr c.testId = true →
       getItem store (assignKey c.testId) = some v → v ≠ "" →
       (initializeAssignment c store r).1.assignedVariant = some v) := by
  refine ⟨?_, ?_, ?_⟩
  · intro h
    have hb : decide (c.assignedVariant = some "A") = false := decide_eq_false h
    simp [currentData, hb]
  · intro h
    have ha : decide (c.assignedVariant = some "A") = true := decide_eq_true h
    simp [currentData, ha]
  · intro hm ht hv hne
    rw [init_auto_stored c store r v hm ht hv hne]

/-- Closed instance of C10: a corrupted stored value "GARBAGE" is adopted by
Auto-mode resolution and makes the projection show variant B's title. -/
theorem variant_selection_unvalidated_witness :
    ((initializeAssignment cSample [(assignKey (some "t1"), "GARBAGE")] 0).1).assignedVariant =
      some "GARBAGE" ∧
    (currentData "/s"
        (initializeAssignment cSample [(assignKey (some "t1"), "GARBAGE")] 0).1).title =
      some "Title B" := by
  have h1 := (variant_selection_unvalidated "/s" cSample
    [(assignKey (some "t1"), "GARBAGE")] 0 "GARBAGE").2.2 rfl (by decide) (by decide) (by decide)
  refine ⟨h1, ?_⟩
  have h2 := (variant_selection_unvalidated "/s"
    (initializeAssignment cSample [(assignKey (some "t1"), "GARBAGE")] 0).1
    [] 0 "x").1 (by rw [h1]; decide)
  rw [h2.1]
  rfl

end Claim10

end ABHero
